import Mathlib

/-!
Verification development for the SillyTavern-System endpoint handlers:
a shallow embedding of `src/src/stable-diffusion.js` and of the OpenAI relay
file (`src/unnamed/part_000`), together with proofs about the embedded code.

Modelling conventions:
* JS strings manipulated character-by-character (the `safeStr` sanitizer) are
  modelled as `List Char`; strings that are only compared or concatenated are
  modelled as `String`.
* Each HTTP handler body is modelled as a pure function from the backend's
  response(s) — supplied as inputs — to the response sent to the original
  caller.  Where a claim is about the outbound traffic itself (the ComfyUI
  polling flow, the set-model progress wait), the handler also produces an
  explicit trace of outbound actions.
* `fetch` never throws on an HTTP error status (node-fetch semantics): a
  non-2xx backend status is visible to the handler only through `result.ok`.
  Loops with no bound in the source are modelled fuel-based: `none` means the
  loop is still running after `fuel` iterations.
-/

namespace STSpec

/- ============================================================
   JS strings and `safeStr` (stable-diffusion.js lines 13-21)
   ============================================================ -/

abbrev JStr := List Char

/-- The character class of the JavaScript regex `\s` (which is also the set
removed by `String.prototype.trim`): whitespace and line terminators, by code
point. -/
def isJsSpace (c : Char) : Bool :=
  let n := c.toNat
  n == 0x20 || (decide (0x9 ≤ n) && decide (n ≤ 0xD)) || n == 0xA0 || n == 0x1680 ||
  (decide (0x2000 ≤ n) && decide (n ≤ 0x200A)) || n == 0x2028 || n == 0x2029 ||
  n == 0x202F || n == 0x205F || n == 0x3000 || n == 0xFEFF

/-- One pass of `x.replace(/  /g, ' ')` (line 16): non-overlapping,
left-to-right replacement of each two-space occurrence by one space. -/
def collapseOnce : List Char → List Char
  | [] => []
  | [c] => [c]
  | c :: d :: rest =>
    if c = ' ' ∧ d = ' ' then ' ' :: collapseOnce rest
    else c :: collapseOnce (d :: rest)

/-- The `for (let i = 0; i < 16; i++)` loop of lines 15-17: sixteen sequential
passes of the two-space collapse. -/
def collapseN : Nat → List Char → List Char
  | 0, l => l
  | n+1, l => collapseN n (collapseOnce l)

/-- `x.trim()` (line 18): drop JS whitespace from both ends. -/
def jsTrim (l : List Char) : List Char :=
  ((l.dropWhile isJsSpace).reverse.dropWhile isJsSpace).reverse

/-- The character class `[\s,.]` of the regex on line 19. -/
def isStripChar (c : Char) : Bool := isJsSpace c || c == ',' || c == '.'

/-- `x.replace(/^[\s,.]+|[\s,.]+$/g, '')` (line 19): the two anchored
alternatives remove the maximal leading run and the maximal trailing run of
`[\s,.]` characters (`^` matches only at position 0; the `$`-anchored
alternative matches the maximal trailing run). -/
def stripEnds (l : List Char) : List Char :=
  ((l.dropWhile isStripChar).reverse.dropWhile isStripChar).reverse

/-- `safeStr` (lines 13-21): sixteen two-space collapse passes, then `trim`,
then stripping of leading/trailing whitespace, commas and dots. -/
def safeStr (l : JStr) : JStr := stripEnds (jsTrim (collapseN 16 l))

/-- `l` contains `m` consecutive space characters somewhere. -/
def hasRun (m : Nat) (l : List Char) : Prop :=
  ∃ u v : List Char, l = u ++ (List.replicate m ' ' ++ v)

/-- Iterated `n ↦ ⌈n/2⌉`: the length of a maximal space run after `k` collapse
passes, when it started at `n`. -/
def halveIter : Nat → Nat → Nat
  | 0, n => n
  | k+1, n => halveIter k ((n+1)/2)

/-- A concrete input for `safeStr`: a run of 2^16 + 1 spaces between two
letters.  Sixteen halving passes leave two adjacent spaces in the output. -/
def exBig : JStr := 'a' :: (List.replicate 65537 ' ' ++ ['b'])

/- ============================================================
   Prompt expansion (stable-diffusion.js lines 23-43 and 332-360)
   ============================================================ -/

/-- The two split strings of lines 23-26. -/
def splitStrings : List JStr := [(", extremely").toList, (", intricate,").toList]

/-- `dangerousPatterns` (line 28). -/
def dangerousPatterns : JStr := ("[]【】()（）|:：").toList

/-- `removePattern` (lines 36-43): for each character of `pat`, remove every
occurrence of that character from `x` (the per-character global regex
replacement with the empty string). -/
def removePattern (x pat : JStr) : JStr :=
  pat.foldl (fun acc p => acc.filter (fun c => !(c == p))) x

/-- Outcome of the lazily loaded text-generation pipeline call of lines
344-351: either generated text, or any throw along the `import`, `getPipeline`
or `pipe(...)` chain. -/
inductive PipeResult where
  | ok : JStr → PipeResult
  | err : PipeResult
deriving DecidableEq

/-- Response of the `/api/sd/expand` handler: an HTTP status and the `prompt`
field of the JSON body. -/
structure ExpandResp where
  status : Nat
  prompt : JStr
deriving DecidableEq

/-- The prompt the handler feeds to the pipeline (line 342): sanitized
original plus a randomly chosen split string; the random draw
`Math.floor(Math.random() * 2)` is modelled as the adversarial input `pick`. -/
def expandInput (p : JStr) (pick : Fin 2) : JStr :=
  safeStr p ++ splitStrings.getD pick.val []

/-- The `/api/sd/expand` handler (lines 332-360).  `prompt?` is the request's
`prompt` field (`none` = absent; the absent/empty cases are the falsy values a
string-typed field can take); `pipe` is the text-generation pipeline. -/
def expandHandler (prompt? : Option JStr) (pick : Fin 2) (pipe : JStr → PipeResult) :
    ExpandResp :=
  match prompt? with
  | none => { status := 200, prompt := [] }
  | some p =>
    if p = [] then { status := 200, prompt := [] }
    else
      match pipe (expandInput p pick) with
      | PipeResult.ok t =>
          { status := 200, prompt := safeStr (removePattern t dangerousPatterns) }
      | PipeResult.err => { status := 200, prompt := p }

/- ============================================================
   URL construction by the relay handlers (WHATWG URL semantics)
   ============================================================ -/

/-- A parsed WHATWG URL, as produced by `new URL(request.body.url)`:
scheme://host:port/path?query#fragment. -/
structure URLRec where
  scheme : String
  host : String
  port : Option Nat
  path : String
  query : String
  fragment : String
deriving DecidableEq

/-- The WHATWG `url.pathname = p` setter used by every relay handler
(e.g. lines 60-61, 137-138): it replaces only the path component; scheme,
host, port, query and fragment are left untouched. -/
def setPathname (u : URLRec) (p : String) : URLRec :=
  { u with path := p }

/-- The outbound URL of `/api/sd/ping` (lines 60-61). -/
def pingUrl (base : URLRec) : URLRec := setPathname base "/sdapi/v1/options"

/-- The outbound URL of `/api/sd/samplers` (lines 137-138). -/
def samplersUrl (base : URLRec) : URLRec := setPathname base "/sdapi/v1/samplers"

/-- Modelled from the spec: the outbound URL described in §8 — the base URL
with its path replaced by the sub-path, scheme/host/port preserved, and the
prior path and query discarded. -/
def specRelayUrl (u : URLRec) (p : String) : URLRec :=
  { scheme := u.scheme, host := u.host, port := u.port,
    path := p, query := "", fragment := u.fragment }

/-- A base URL that carries a query string. -/
def urlWithQuery : URLRec :=
  { scheme := "http", host := "127.0.0.1", port := some 7860,
    path := "/old/path", query := "preset=1", fragment := "" }

/- ============================================================
   Generic response shapes
   ============================================================ -/

/-- node-fetch `result.ok`: status in the 2xx range. -/
def statusOk (s : Nat) : Bool := decide (200 ≤ s) && decide (s < 300)

/-- A response relayed to the original caller: HTTP status plus an optional
textual payload (`none` models `sendStatus` / an undefined body). -/
structure RelayResp where
  status : Nat
  body : Option String
deriving DecidableEq

/- ============================================================
   /api/sd/get-model and /api/sd/ping (lines 186-203 and 58-79)
   ============================================================ -/

/-- The parsed `/sdapi/v1/options` JSON body, restricted to the field the
get-model handler reads; the field may be absent (`undefined`). -/
structure OptionsJson where
  sd_model_checkpoint : Option String
deriving DecidableEq

/-- A backend HTTP response as the get-model handler sees it: the status, and
the body as JSON if it parses (`none` = `result.json()` throws). -/
structure BackendHttp where
  status : Nat
  options : Option OptionsJson
deriving DecidableEq

/-- The `/api/sd/get-model` handler body (lines 186-203).  Note the source has
no `result.ok` check: it calls `result.json()` unconditionally and sends
`data['sd_model_checkpoint']`; only a JSON parse failure reaches the catch
block (`sendStatus(500)`).  `response.send(undefined)` is a 200 with an empty
body. -/
def getModelHandler (r : BackendHttp) : RelayResp :=
  match r.options with
  | none => { status := 500, body := none }
  | some j => { status := 200, body := j.sd_model_checkpoint }

/-- The `/api/sd/ping` handler body (lines 58-79) as a function of the backend
status: `!result.ok` throws, the catch block answers 500; otherwise 200. -/
def pingHandler (s : Nat) : RelayResp :=
  if statusOk s then { status := 200, body := none } else { status := 500, body := none }

/- ============================================================
   What each backend-calling handler answers when the backend
   returns a non-2xx status with (plain-text) error body `t`
   ============================================================ -/

/-- `/api/sd/ping` (line 70-77): throws on `!ok`, catch does `sendStatus(500)`. -/
def sdPingOnError (_t : String) : RelayResp := { status := 500, body := none }

/-- `/api/sd/upscalers` (lines 94-96, 114-116, 129-132): throws, `sendStatus(500)`. -/
def sdUpscalersOnError (_t : String) : RelayResp := { status := 500, body := none }

/-- `/api/sd/samplers` (lines 147-149, 155-158): throws, `sendStatus(500)`. -/
def sdSamplersOnError (_t : String) : RelayResp := { status := 500, body := none }

/-- `/api/sd/models` (lines 173-175, 180-183): throws, `sendStatus(500)`. -/
def sdModelsOnError (_t : String) : RelayResp := { status := 500, body := none }

/-- `/api/sd/get-model` (lines 186-203): no ok-check, but `result.json()` on a
plain-text error body throws, so the catch answers `sendStatus(500)`. -/
def sdGetModelOnError (_t : String) : RelayResp := { status := 500, body := none }

/-- `/api/sd/set-model` (lines 239-241, 260-263): throws, `sendStatus(500)`. -/
def sdSetModelOnError (_t : String) : RelayResp := { status := 500, body := none }

/-- `/api/sd/generate` (lines 283-293): reads the error text into the thrown
error's `cause`, logs it, and answers `sendStatus(500)` — no payload. -/
def sdGenerateOnError (_t : String) : RelayResp := { status := 500, body := none }

/-- `/api/sd-next/upscalers` (lines 308-310, 322-325): throws, `sendStatus(500)`. -/
def sdNextUpscalersOnError (_t : String) : RelayResp := { status := 500, body := none }

/-- `/api/sd/comfy/ping` (lines 368-376): throws, `sendStatus(500)`. -/
def comfyPingOnError (_t : String) : RelayResp := { status := 500, body := none }

/-- `/api/sd/comfy/samplers` (lines 385-394): throws, `sendStatus(500)`. -/
def comfySamplersOnError (_t : String) : RelayResp := { status := 500, body := none }

/-- `/api/sd/comfy/models` (lines 403-410): throws, `sendStatus(500)`. -/
def comfyModelsOnError (_t : String) : RelayResp := { status := 500, body := none }

/-- `/api/sd/comfy/schedulers` (lines 420-428): throws, `sendStatus(500)`. -/
def comfySchedulersOnError (_t : String) : RelayResp := { status := 500, body := none }

/-- `/api/sd/comfy/vaes` (lines 438-446): throws, `sendStatus(500)`. -/
def comfyVaesOnError (_t : String) : RelayResp := { status := 500, body := none }

/-- `/api/sd/comfy/generate` (lines 514-516, 525-527, 540-547): throws, and the
catch answers `sendStatus(500)`. -/
def comfyGenerateOnError (_t : String) : RelayResp := { status := 500, body := none }

/-- `/api/openai/caption-image` (part_000 lines 69-73):
`response.status(500).send(text)` — the backend's raw error text is forwarded
with a fixed 500 status. -/
def captionImageOnError (t : String) : RelayResp := { status := 500, body := some t }

/-- `/api/openai/transcribe-audio` (part_000 lines 123-127):
`response.status(500).send(text)`. -/
def transcribeAudioOnError (t : String) : RelayResp := { status := 500, body := some t }

/-- `/api/openai/generate-voice` (part_000 lines 163-167):
`response.status(500).send(text)`. -/
def generateVoiceOnError (t : String) : RelayResp := { status := 500, body := some t }

/-- `/api/openai/generate-image` (part_000 lines 199-203):
`response.status(500).send(text)`. -/
def generateImageOnError (t : String) : RelayResp := { status := 500, body := some t }

/-- The `result.ok` guard of `/api/sd/ping`'s options GET (lines 70-77): a
non-2xx status throws into the catch block, which answers `sendStatus(500)`
with no payload; a 2xx status continues with the handler's success response. -/
def sdPingGuard (s : Nat) (success : RelayResp) : RelayResp :=
  if statusOk s then success else { status := 500, body := none }

/-- The `result.ok` guard of `/api/sd/upscalers`' upscalers GET (lines 94-96,
catch at 129-132). -/
def sdUpscalersGuard (s : Nat) (success : RelayResp) : RelayResp :=
  if statusOk s then success else { status := 500, body := none }

/-- The `result.ok` guard of `/api/sd/upscalers`' latent-upscale-modes GET
(lines 114-116, catch at 129-132). -/
def sdLatentUpscalersGuard (s : Nat) (success : RelayResp) : RelayResp :=
  if statusOk s then success else { status := 500, body := none }

/-- The `result.ok` guard of `/api/sd/samplers`' samplers GET (lines 147-149,
catch at 155-158). -/
def sdSamplersGuard (s : Nat) (success : RelayResp) : RelayResp :=
  if statusOk s then success else { status := 500, body := none }

/-- The `result.ok` guard of `/api/sd/models`' sd-models GET (lines 173-175,
catch at 180-183). -/
def sdModelsGuard (s : Nat) (success : RelayResp) : RelayResp :=
  if statusOk s then success else { status := 500, body := none }

/-- The `result.ok` guard of `/api/sd/set-model`'s options POST (lines
239-241, catch at 260-263).  The progress GET of the same handler (lines
211-218) has no such guard. -/
def sdSetModelGuard (s : Nat) (success : RelayResp) : RelayResp :=
  if statusOk s then success else { status := 500, body := none }

/-- The `result.ok` guard of `/api/sd/generate`'s txt2img POST (lines 283-286,
catch at 290-293). -/
def sdGenerateGuard (s : Nat) (success : RelayResp) : RelayResp :=
  if statusOk s then success else { status := 500, body := none }

/-- The `result.ok` guard of `/api/sd-next/upscalers`' upscalers GET (lines
308-310, catch at 322-325). -/
def sdNextUpscalersGuard (s : Nat) (success : RelayResp) : RelayResp :=
  if statusOk s then success else { status := 500, body := none }

/-- The `result.ok` guard of `/api/sd/comfy/ping`'s system_stats GET (lines
368-370, catch at 373-376). -/
def comfyPingGuard (s : Nat) (success : RelayResp) : RelayResp :=
  if statusOk s then success else { status := 500, body := none }

/-- The `result.ok` guard of `/api/sd/comfy/samplers`' object_info GET (lines
385-387, catch at 391-394). -/
def comfySamplersGuard (s : Nat) (success : RelayResp) : RelayResp :=
  if statusOk s then success else { status := 500, body := none }

/-- The `result.ok` guard of `/api/sd/comfy/models`' object_info GET (lines
403-405, catch at 408-411). -/
def comfyModelsGuard (s : Nat) (success : RelayResp) : RelayResp :=
  if statusOk s then success else { status := 500, body := none }

/-- The `result.ok` guard of `/api/sd/comfy/schedulers`' object_info GET
(lines 420-422, catch at 426-429). -/
def comfySchedulersGuard (s : Nat) (success : RelayResp) : RelayResp :=
  if statusOk s then success else { status := 500, body := none }

/-- The `result.ok` guard of `/api/sd/comfy/vaes`' object_info GET (lines
438-440, catch at 444-447). -/
def comfyVaesGuard (s : Nat) (success : RelayResp) : RelayResp :=
  if statusOk s then success else { status := 500, body := none }

/-- The `result.ok` guard of `/api/sd/comfy/generate`'s prompt POST (lines
514-516, catch at 545-547). -/
def comfyPromptGuard (s : Nat) (success : RelayResp) : RelayResp :=
  if statusOk s then success else { status := 500, body := none }

/-- The `result.ok` guard of `/api/sd/comfy/generate`'s history GET (lines
525-527, catch at 545-547). -/
def comfyHistoryGuard (s : Nat) (success : RelayResp) : RelayResp :=
  if statusOk s then success else { status := 500, body := none }

/-- The `result.ok` guard of `/api/sd/comfy/generate`'s view GET (lines
540-542, catch at 545-547). -/
def comfyViewGuard (s : Nat) (success : RelayResp) : RelayResp :=
  if statusOk s then success else { status := 500, body := none }

/-- Every backend call of stable-diffusion.js that is guarded by an
`if (!result.ok) throw` check, in source order.  The two unguarded backend
calls of the file are get-model's options GET (lines 191-197) and set-model's
progress GET (lines 211-218). -/
def guardedCalls : List (String × (Nat → RelayResp → RelayResp)) :=
  [("/api/sd/ping options GET", sdPingGuard),
   ("/api/sd/upscalers upscalers GET", sdUpscalersGuard),
   ("/api/sd/upscalers latent-upscale-modes GET", sdLatentUpscalersGuard),
   ("/api/sd/samplers samplers GET", sdSamplersGuard),
   ("/api/sd/models sd-models GET", sdModelsGuard),
   ("/api/sd/set-model options POST", sdSetModelGuard),
   ("/api/sd/generate txt2img POST", sdGenerateGuard),
   ("/api/sd-next/upscalers upscalers GET", sdNextUpscalersGuard),
   ("/api/sd/comfy/ping system_stats GET", comfyPingGuard),
   ("/api/sd/comfy/samplers object_info GET", comfySamplersGuard),
   ("/api/sd/comfy/models object_info GET", comfyModelsGuard),
   ("/api/sd/comfy/schedulers object_info GET", comfySchedulersGuard),
   ("/api/sd/comfy/vaes object_info GET", comfyVaesGuard),
   ("/api/sd/comfy/generate prompt POST", comfyPromptGuard),
   ("/api/sd/comfy/generate history GET", comfyHistoryGuard),
   ("/api/sd/comfy/generate view GET", comfyViewGuard)]

/-- Every handler of the two files that calls a backend, paired with what it
answers when that backend call returns a non-2xx status with error body `t`,
in source order. -/
def backendHandlers : List (String × (String → RelayResp)) :=
  [("/api/sd/ping", sdPingOnError),
   ("/api/sd/upscalers", sdUpscalersOnError),
   ("/api/sd/samplers", sdSamplersOnError),
   ("/api/sd/models", sdModelsOnError),
   ("/api/sd/get-model", sdGetModelOnError),
   ("/api/sd/set-model", sdSetModelOnError),
   ("/api/sd/generate", sdGenerateOnError),
   ("/api/sd-next/upscalers", sdNextUpscalersOnError),
   ("/api/sd/comfy/ping", comfyPingOnError),
   ("/api/sd/comfy/samplers", comfySamplersOnError),
   ("/api/sd/comfy/models", comfyModelsOnError),
   ("/api/sd/comfy/schedulers", comfySchedulersOnError),
   ("/api/sd/comfy/vaes", comfyVaesOnError),
   ("/api/sd/comfy/generate", comfyGenerateOnError),
   ("/api/openai/caption-image", captionImageOnError),
   ("/api/openai/transcribe-audio", transcribeAudioOnError),
   ("/api/openai/generate-voice", generateVoiceOnError),
   ("/api/openai/generate-image", generateImageOnError)]

/- ============================================================
   Model list and upscaler list handlers (lines 161-184, 81-133,
   296-326)
   ============================================================ -/

/-- One entry of the backend's `/sdapi/v1/sd-models` response, restricted to
the fields relevant to the transformation (only `title` is read). -/
structure SDModelInfo where
  title : String
  model_name : String
deriving DecidableEq

/-- One `{ value, text }` option object sent to the caller. -/
structure Choice where
  value : String
  text : String
deriving DecidableEq

/-- The `/api/sd/models` body transformation (line 178):
`data.map(x => ({ value: x.title, text: x.title }))`. -/
def sdModelsBody (data : List SDModelInfo) : List Choice :=
  data.map (fun x => { value := x.title, text := x.title })

/-- `xs.splice(i, 0, ...ys)`: insert `ys` at index `i` (deleteCount 0), the
start index clamped to the array length. -/
def spliceInsert (xs : List String) (i : Nat) (ys : List String) : List String :=
  xs.take i ++ ys ++ xs.drop i

/-- The `/api/sd/upscalers` composition (line 126):
`upscalers.splice(1, 0, ...latentUpscalers)`. -/
def combineUpscalers (upscalers latentUpscalers : List String) : List String :=
  spliceInsert upscalers 1 latentUpscalers

/-- The hardcoded latent upscalers of `/api/sd-next/upscalers` (line 313). -/
def sdNextLatentUpscalers : List String :=
  ["Latent", "Latent (antialiased)", "Latent (bicubic)", "Latent (bicubic antialiased)",
   "Latent (nearest)", "Latent (nearest-exact)"]

/-- The `/api/sd-next/upscalers` composition (line 319):
`names.splice(1, 0, ...latentUpscalers)`. -/
def sdNextUpscalers (names : List String) : List String :=
  spliceInsert names 1 sdNextLatentUpscalers

/- ============================================================
   /api/sd/comfy/generate polling flow (lines 505-548)
   ============================================================ -/

/-- One output image reference of a ComfyUI history entry. -/
structure ImgInfo where
  filename : String
  subfolder : String
  type : String
deriving DecidableEq

/-- The per-node output object; only `images` is read. -/
structure NodeOutput where
  images : List ImgInfo
deriving DecidableEq

/-- One history entry (`history[id]`): `outputs` maps node ids to outputs,
modelled as an association list in `Object.keys` order. -/
structure HistoryItem where
  outputs : List (String × NodeOutput)
deriving DecidableEq

/-- A `/history` snapshot: the full mapping from job id to entry. -/
abbrev History := List (String × HistoryItem)

/-- Outbound actions of the ComfyUI generation flow. -/
inductive CAction where
  | postPrompt : CAction
  | getHistory : CAction
  | wait : Nat → CAction
  | getView : String → CAction
deriving DecidableEq

/-- The `while (true)` polling loop of lines 523-534, fuel-bounded for the
embedding: at each iteration GET `/history` (the k-th call sees snapshot
`histories k`), look the job id up, break when found, otherwise
`await delay(100)` and retry.  Returns the trace of history GETs and waits
together with the found item; `none` means the loop is still running after
`fuel` polls. -/
def pollLoop : String → (Nat → History) → Nat → Option (List CAction × HistoryItem)
  | _, _, 0 => none
  | id, histories, fuel+1 =>
    match (histories 0).lookup id with
    | some item => some ([CAction.getHistory], item)
    | none =>
      match pollLoop id (fun i => histories (i+1)) fuel with
      | some (tr, item) => some (CAction.getHistory :: CAction.wait 100 :: tr, item)
      | none => none

/-- Line 535: `Object.keys(item.outputs).map(it => item.outputs[it].images).flat()[0]`
— the first image across all node outputs, in key order. -/
def firstImage (item : HistoryItem) : Option ImgInfo :=
  ((item.outputs.map (fun kv => kv.2.images)).flatten).head?

/-- Lines 537-538: the query string of the `/view` asset fetch.  The source
assigns `imgUrl.search = '?filename=...&subfolder=...&type=...'`; the WHATWG
search setter strips the leading `?`, and the three values are interpolated
verbatim (no escaping in the template literal; none of the characters of the
scenario values is touched by the query percent-encode set). -/
def viewQuery (img : ImgInfo) : String :=
  "filename=" ++ img.filename ++ "&subfolder=" ++ img.subfolder ++ "&type=" ++ img.type

/-- The `/api/sd/comfy/generate` flow (lines 505-548) after a successful job
submission that returned `id` (`data.prompt_id`): the action trace from the
submission POST through the polling loop to the single `/view` GET.  `none`
when the loop exceeds the fuel or the history entry carries no image. -/
def comfyGenerate (id : String) (histories : Nat → History) (fuel : Nat) :
    Option (List CAction) :=
  match pollLoop id histories fuel with
  | none => none
  | some (tr, item) =>
    match firstImage item with
    | none => none
    | some img => some (CAction.postPrompt :: (tr ++ [CAction.getView (viewQuery img)]))

/-- The single output image of the fixed scenario. -/
def imgX : ImgInfo := { filename := "x.png", subfolder := "", type := "output" }

/-- The history entry of the fixed scenario: one node with one output image. -/
def itemX : HistoryItem := { outputs := [("9", { images := [imgX] })] }

/-- The fixed scenario's history endpoint: empty mapping on the first two
polls, the entry for "abc123" from the third poll on. -/
def histScenario : Nat → History := fun k => if k < 2 then [] else [("abc123", itemX)]

/-- The expected outbound trace of the fixed scenario. -/
def scenarioTrace : List CAction :=
  [CAction.postPrompt, CAction.getHistory, CAction.wait 100, CAction.getHistory,
   CAction.wait 100, CAction.getHistory,
   CAction.getView "filename=x.png&subfolder=&type=output"]

/-- A history endpoint that is empty once and then carries job "job1". -/
def histOnce : Nat → History := fun k => if k = 0 then [] else [("job1", itemX)]

/- ============================================================
   /api/sd/set-model progress wait (lines 205-264)
   ============================================================ -/

/-- The parsed `/sdapi/v1/progress` response, restricted to the fields read:
`progress` (a JSON number, compared with `== 0.0`) and `state.job_count`
(compared with `=== 0`, so a missing/null field never equals 0). -/
structure ProgressState where
  progress : Rat
  job_count : Option Int
deriving DecidableEq

/-- Line 251: `progress == 0.0 && jobCount === 0`. -/
def progressIdle (s : ProgressState) : Bool :=
  decide (s.progress = 0) && decide (s.job_count = some 0)

/-- Outbound actions of the progress-wait loop. -/
inductive SMEvent where
  | poll : SMEvent
  | wait : Nat → SMEvent
deriving DecidableEq

/-- The `for (attempt = 0; attempt < MAX_ATTEMPTS; attempt++)` loop of lines
243-257 with the remaining attempt budget as the recursion measure: poll the
progress endpoint (the k-th poll sees `states k`), break when idle, otherwise
`await delay(2000)` and continue. -/
def smLoop : (Nat → ProgressState) → Nat → List SMEvent
  | _, 0 => []
  | states, n+1 =>
    if progressIdle (states 0) then [SMEvent.poll]
    else SMEvent.poll :: SMEvent.wait 2000 :: smLoop (fun i => states (i+1)) n

/-- Response of `/api/sd/set-model` plus its outbound progress-wait trace. -/
structure SMResp where
  status : Nat
  events : List SMEvent
deriving DecidableEq

/-- The `/api/sd/set-model` handler (lines 205-264): if the model-switch POST
fails it throws (catch answers 500); otherwise it runs the progress-wait loop
with `MAX_ATTEMPTS = 10`, `CHECK_INTERVAL = 2000`, and answers
`sendStatus(200)` whether or not the loop ever saw an idle state. -/
def setModelHandler (switchOk : Bool) (states : Nat → ProgressState) : SMResp :=
  if switchOk then { status := 200, events := smLoop states 10 }
  else { status := 500, events := [] }

/-- An always-idle progress endpoint. -/
def idleStates : Nat → ProgressState := fun _ => { progress := 0, job_count := some 0 }

/- ============================================================
   Theorems
   ============================================================ -/

/-- Claim C1, counterexample: a backend answering the options GET with status
500 and a parseable JSON body (here `{}`) makes the get-model handler respond
200 with an undefined body — a 2xx response despite the non-2xx backend
status, carrying undefined backend data. -/
theorem get_model_relays_error_as_200 :
    statusOk 500 = false ∧
    getModelHandler { status := 500, options := some { sd_model_checkpoint := none } } =
      { status := 200, body := none } := by
  decide

/-- Claim C1, amended: every backend call that is guarded by a `result.ok`
check — all backend calls of the two files except get-model's options GET and
set-model's progress GET, i.e. the calls of ping, upscalers, samplers, models,
set-model's options POST, generate, sd-next/upscalers, the comfy handlers and
the OpenAI handlers — yields, on a non-2xx status, a failure (500) response;
for the guarded stable-diffusion calls that response carries no payload
(whatever the handler's success response would have been), and every
backend-calling handler's catch-path response to a backend error has status
500.  The get-model handler is the exception: its options GET is unguarded,
so whenever the backend body parses as JSON it responds 200 relaying the
(possibly absent) `sd_model_checkpoint` field regardless of the backend
status, and responds 500 only when the body is not valid JSON. -/
theorem get_model_amended (s : Nat) (j : OptionsJson) (t : String)
    (h : statusOk s = false) :
    (∀ g ∈ guardedCalls, ∀ success, g.2 s success = { status := 500, body := none }) ∧
    (∀ hd ∈ backendHandlers, (hd.2 t).status = 500) ∧
    pingHandler s = { status := 500, body := none } ∧
    getModelHandler { status := s, options := some j } =
      { status := 200, body := j.sd_model_checkpoint } ∧
    getModelHandler { status := s, options := none } = { status := 500, body := none } := by
  refine ⟨?_, ?_, ?_, rfl, rfl⟩
  · intro g hg success
    simp only [guardedCalls, List.mem_cons, List.not_mem_nil, or_false] at hg
    rcases hg with rfl | rfl | rfl | rfl | rfl | rfl | rfl | rfl | rfl | rfl | rfl | rfl |
      rfl | rfl | rfl | rfl <;>
      simp [sdPingGuard, sdUpscalersGuard, sdLatentUpscalersGuard, sdSamplersGuard,
        sdModelsGuard, sdSetModelGuard, sdGenerateGuard, sdNextUpscalersGuard,
        comfyPingGuard, comfySamplersGuard, comfyModelsGuard, comfySchedulersGuard,
        comfyVaesGuard, comfyPromptGuard, comfyHistoryGuard, comfyViewGuard, h]
  · intro hd hm
    simp only [backendHandlers, List.mem_cons, List.not_mem_nil, or_false] at hm
    rcases hm with rfl | rfl | rfl | rfl | rfl | rfl | rfl | rfl | rfl | rfl | rfl | rfl |
      rfl | rfl | rfl | rfl | rfl | rfl <;> rfl
  · simp [pingHandler, h]

/-- Witness for `get_model_amended` at backend status 502. -/
theorem get_model_amended_witness :
    statusOk 502 = false ∧
    sdPingGuard 502 { status := 200, body := none } = { status := 500, body := none } ∧
    pingHandler 502 = { status := 500, body := none } ∧
    getModelHandler { status := 502, options := some { sd_model_checkpoint := some "m.ckpt" } } =
      { status := 200, body := some "m.ckpt" } := by
  have h := get_model_amended 502 { sd_model_checkpoint := some "m.ckpt" } "err" (by decide)
  exact ⟨by decide,
    h.1 ("/api/sd/ping options GET", sdPingGuard) (List.mem_cons_self _ _)
      { status := 200, body := none },
    h.2.2.1, h.2.2.2.1⟩

/-- Claim C2, counterexample: the outbound URL built by `/api/sd/ping` from a
base URL carrying a query string keeps that query string — it does not equal
the spec's described URL with the query discarded. -/
theorem relay_url_keeps_query :
    pingUrl urlWithQuery ≠ specRelayUrl urlWithQuery "/sdapi/v1/options" ∧
    (pingUrl urlWithQuery).query = "preset=1" := by
  decide

/-- Claim C2, amended: the outbound URL equals the base URL with its path
replaced by the fixed sub-path; scheme, host and port are preserved, the prior
path is discarded, but the base URL's query (and fragment) are preserved, not
discarded. -/
theorem relay_url_amended (u : URLRec) (sub : String) :
    (setPathname u sub).scheme = u.scheme ∧ (setPathname u sub).host = u.host ∧
    (setPathname u sub).port = u.port ∧ (setPathname u sub).path = sub ∧
    (setPathname u sub).query = u.query ∧ (setPathname u sub).fragment = u.fragment ∧
    pingUrl u = setPathname u "/sdapi/v1/options" ∧
    samplersUrl u = setPathname u "/sdapi/v1/samplers" :=
  ⟨rfl, rfl, rfl, rfl, rfl, rfl, rfl, rfl⟩

/-- Witness for `relay_url_amended` at a concrete base URL. -/
theorem relay_url_amended_witness :
    pingUrl urlWithQuery =
      { scheme := "http", host := "127.0.0.1", port := some 7860,
        path := "/sdapi/v1/options", query := "preset=1", fragment := "" } := by
  have h := relay_url_amended urlWithQuery "/sdapi/v1/options"
  decide

/-- Claim C4: in the fixed scenario (job id "abc123", history empty on the
first two polls, the entry with the single output image
`{filename: "x.png", subfolder: "", type: "output"}` on the third), the flow
issues exactly 3 history GETs with the fixed 100-unit delay between
consecutive polls, followed by exactly one `/view` GET whose query string is
`filename=x.png&subfolder=&type=output`, the three parameters copied verbatim
from the history entry. -/
theorem comfy_polling_scenario :
    comfyGenerate "abc123" histScenario 10 = some scenarioTrace ∧
    scenarioTrace.count CAction.getHistory = 3 ∧
    scenarioTrace.count (CAction.getView "filename=x.png&subfolder=&type=output") = 1 ∧
    scenarioTrace.count (CAction.wait 100) = 2 := by
  refine ⟨by decide, by decide, by decide, by decide⟩

/-- Claim C6: with "None" at position 0 of the regular upscaler list, both
upscaler handlers produce `None` followed by the latent upscalers followed by
the remaining regular upscalers, both input orders preserved. -/
theorem upscalers_compose (rest latentUpscalers : List String) :
    combineUpscalers ("None" :: rest) latentUpscalers = "None" :: (latentUpscalers ++ rest) ∧
    sdNextUpscalers ("None" :: rest) = "None" :: (sdNextLatentUpscalers ++ rest) := by
  constructor <;> simp [combineUpscalers, sdNextUpscalers, spliceInsert]

/-- Witness for `upscalers_compose` at concrete lists. -/
theorem upscalers_compose_witness :
    combineUpscalers ["None", "ESRGAN"] ["Latent"] = ["None", "Latent", "ESRGAN"] ∧
    sdNextUpscalers ["None", "ESRGAN"] = "None" :: (sdNextLatentUpscalers ++ ["ESRGAN"]) := by
  have h := upscalers_compose ["ESRGAN"] ["Latent"]
  exact ⟨by simpa using h.1, h.2⟩

/-- Claim C8: the models handler maps the backend list to `{value, text}`
pairs with `value = text = title` entrywise, preserving length and order
(entry `i` of the output comes from entry `i` of the backend response). -/
theorem sd_models_transform (data : List SDModelInfo) (i : Nat) (h : i < data.length) :
    (sdModelsBody data).length = data.length ∧
    (sdModelsBody data)[i]? = some { value := data[i].title, text := data[i].title } := by
  constructor
  · simp [sdModelsBody]
  · simp [sdModelsBody, List.getElem?_eq_getElem h]

/-- Witness for `sd_models_transform` at a concrete model list and index 1. -/
theorem sd_models_transform_witness :
    1 < ([⟨"t1", "m1"⟩, ⟨"t2", "m2"⟩] : List SDModelInfo).length ∧
    (sdModelsBody [⟨"t1", "m1"⟩, ⟨"t2", "m2"⟩]).length = 2 ∧
    (sdModelsBody [⟨"t1", "m1"⟩, ⟨"t2", "m2"⟩])[1]? = some { value := "t2", text := "t2" } := by
  have h := sd_models_transform [⟨"t1", "m1"⟩, ⟨"t2", "m2"⟩] 1 (by decide)
  exact ⟨by decide, by simpa using h.1, by simpa using h.2⟩

/-- Two replicated spaces, in list-literal form. -/
theorem replicate_two_space : List.replicate 2 ' ' = [' ', ' '] := rfl

/-- A collapse pass walks over any non-space head character. -/
theorem collapseOnce_cons_ne (c : Char) (l : List Char) (hc : c ≠ ' ') :
    collapseOnce (c :: l) = c :: collapseOnce l := by
  cases l with
  | nil => rfl
  | cons d t =>
    have h : ¬ (c = ' ' ∧ d = ' ') := fun h => hc h.1
    simp [collapseOnce, h]

/-- A collapse pass turns a leading run of `n` spaces (followed by a non-space
character) into a run of `⌈n/2⌉` spaces. -/
theorem collapseOnce_run : ∀ (n : Nat) (b : Char) (t : List Char), b ≠ ' ' →
    collapseOnce (List.replicate n ' ' ++ b :: t) =
      List.replicate ((n+1)/2) ' ' ++ b :: collapseOnce t
  | 0, b, t, hb => by
    simpa using collapseOnce_cons_ne b t hb
  | 1, b, t, hb => by
    have hbne : ¬ (' ' = ' ' ∧ b = ' ') := fun h => hb h.2
    simp [List.replicate_succ, collapseOnce, hbne, hb, collapseOnce_cons_ne b t hb]
  | n+2, b, t, hb => by
    have ih := collapseOnce_run n b t hb
    have harith : (n + 2 + 1) / 2 = (n + 1) / 2 + 1 := by omega
    simp [List.replicate_succ, collapseOnce, ih, harith]

/-- `k` collapse passes on a single space run wrapped in non-space characters
iterate the halving `k` times. -/
theorem collapseN_wrap (a b : Char) (ha : a ≠ ' ') (hb : b ≠ ' ') :
    ∀ (k n : Nat),
      collapseN k (a :: (List.replicate n ' ' ++ [b])) =
        a :: (List.replicate (halveIter k n) ' ' ++ [b]) := by
  intro k
  induction k with
  | zero => intro n; rfl
  | succ m ih =>
    intro n
    have h1 : collapseOnce (a :: (List.replicate n ' ' ++ [b])) =
        a :: (List.replicate ((n+1)/2) ' ' ++ [b]) := by
      rw [collapseOnce_cons_ne a _ ha, collapseOnce_run n b [] hb]
      rfl
    show collapseN m (collapseOnce (a :: (List.replicate n ' ' ++ [b]))) = _
    rw [h1, ih ((n+1)/2)]
    rfl

/-- Sixteen halving passes leave a run of 2 spaces out of the 65537 in
`exBig`, and nothing at the ends is stripped. -/
theorem safeStr_exBig : safeStr exBig = ['a', ' ', ' ', 'b'] := by
  have h1 : collapseN 16 exBig = 'a' :: (List.replicate 2 ' ' ++ ['b']) := by
    have e0 : exBig = 'a' :: (List.replicate 65537 ' ' ++ ['b']) := rfl
    have h2 : halveIter 16 65537 = 2 := by decide
    rw [e0, collapseN_wrap 'a' 'b' (by decide) (by decide) 16 65537, h2]
  show stripEnds (jsTrim (collapseN 16 exBig)) = _
  rw [h1]
  decide

/-- Claim C7, counterexample: `safeStr` is not idempotent.  On the concrete
input `exBig` (a run of 2^16 + 1 spaces between two letters) one application
leaves two adjacent spaces, and a second application collapses them further. -/
theorem safeStr_not_idempotent : safeStr (safeStr exBig) ≠ safeStr exBig := by
  rw [safeStr_exBig]
  decide

/-- If a collapse pass leaves `m+1` leading spaces, the input began with at
least `2m+1` spaces. -/
theorem collapse_head_run :
    ∀ (l : List Char) (m : Nat),
      (∃ v, collapseOnce l = List.replicate (m+1) ' ' ++ v) →
      ∃ w, l = List.replicate (2*m+1) ' ' ++ w
  | [], m, ⟨v, hv⟩ => by
    rw [show collapseOnce [] = [] from rfl, List.replicate_succ] at hv
    exact absurd hv (by simp)
  | [c], m, ⟨v, hv⟩ => by
    rw [show collapseOnce [c] = [c] from rfl, List.replicate_succ, List.cons_append] at hv
    injection hv with h1 h2
    have h3 := List.append_eq_nil.mp h2.symm
    have hm : m = 0 := by
      have h4 := h3.1
      rwa [List.replicate_eq_nil_iff] at h4
    subst hm
    exact ⟨[], by simp [h1]⟩
  | c :: d :: t, m, ⟨v, hv⟩ => by
    by_cases hcd : c = ' ' ∧ d = ' '
    · rw [show collapseOnce (c :: d :: t) = ' ' :: collapseOnce t from by
        simp [collapseOnce, hcd.1, hcd.2]] at hv
      rw [List.replicate_succ, List.cons_append] at hv
      injection hv with h1 h2
      cases m with
      | zero => exact ⟨d :: t, by simp [hcd.1]⟩
      | succ m1 =>
        obtain ⟨w, hw⟩ := collapse_head_run t m1 ⟨v, h2⟩
        refine ⟨w, ?_⟩
        rw [hcd.1, hcd.2, hw]
        rw [show List.replicate (2*(m1+1)+1) ' ' = ' ' :: ' ' :: List.replicate (2*m1+1) ' '
          from rfl]
        rfl
    · rw [show collapseOnce (c :: d :: t) = c :: collapseOnce (d :: t) from by
        simp [collapseOnce, hcd]] at hv
      rw [List.replicate_succ, List.cons_append] at hv
      injection hv with h1 h2
      have hd : d ≠ ' ' := fun hd => hcd ⟨h1, hd⟩
      cases m with
      | zero => exact ⟨d :: t, by simp [h1]⟩
      | succ m1 =>
        rw [collapseOnce_cons_ne d t hd, List.replicate_succ, List.cons_append] at h2
        injection h2 with h3 h4
        exact absurd h3 hd

/-- If a collapse pass leaves `m+1` consecutive spaces somewhere, the input
contained at least `2m+1` consecutive spaces. -/
theorem collapse_run_transfer :
    ∀ (l : List Char) (m : Nat), hasRun (m+1) (collapseOnce l) → hasRun (2*m+1) l
  | [], m, ⟨u, v, huv⟩ => by
    rw [show collapseOnce [] = [] from rfl] at huv
    have h1 := List.append_eq_nil.mp huv.symm
    have h2 := List.append_eq_nil.mp h1.2
    rw [List.replicate_succ] at h2
    exact absurd h2.1 (by simp)
  | [c], m, ⟨u, v, huv⟩ => by
    rw [show collapseOnce [c] = [c] from rfl] at huv
    cases u with
    | nil =>
      rw [List.nil_append, List.replicate_succ, List.cons_append] at huv
      injection huv with h1 h2
      have h3 := List.append_eq_nil.mp h2.symm
      have hm : m = 0 := by
        have h4 := h3.1
        rwa [List.replicate_eq_nil_iff] at h4
      subst hm
      exact ⟨[], [], by simp [h1]⟩
    | cons a u1 =>
      rw [List.cons_append] at huv
      injection huv with h1 h2
      have h3 := List.append_eq_nil.mp h2.symm
      have h4 := List.append_eq_nil.mp h3.2
      rw [List.replicate_succ] at h4
      exact absurd h4.1 (by simp)
  | c :: d :: t, m, ⟨u, v, huv⟩ => by
    by_cases hcd : c = ' ' ∧ d = ' '
    · rw [show collapseOnce (c :: d :: t) = ' ' :: collapseOnce t from by
        simp [collapseOnce, hcd.1, hcd.2]] at huv
      cases u with
      | nil =>
        rw [List.nil_append, List.replicate_succ, List.cons_append] at huv
        injection huv with h1 h2
        cases m with
        | zero => exact ⟨[], d :: t, by simp [hcd.1]⟩
        | succ m1 =>
          obtain ⟨w, hw⟩ := collapse_head_run t m1 ⟨v, h2⟩
          refine ⟨[], w, ?_⟩
          rw [hcd.1, hcd.2, hw]
          rw [show List.replicate (2*(m1+1)+1) ' ' = ' ' :: ' ' :: List.replicate (2*m1+1) ' '
            from rfl]
          rfl
      | cons a u1 =>
        rw [List.cons_append] at huv
        injection huv with h1 h2
        obtain ⟨u2, v2, h3⟩ := collapse_run_transfer t m ⟨u1, v, h2⟩
        exact ⟨c :: d :: u2, v2, by simp [h3]⟩
    · rw [show collapseOnce (c :: d :: t) = c :: collapseOnce (d :: t) from by
        simp [collapseOnce, hcd]] at huv
      cases u with
      | nil =>
        rw [List.nil_append, List.replicate_succ, List.cons_append] at huv
        injection huv with h1 h2
        have hd : d ≠ ' ' := fun hd => hcd ⟨h1, hd⟩
        cases m with
        | zero => exact ⟨[], d :: t, by simp [h1]⟩
        | succ m1 =>
          rw [collapseOnce_cons_ne d t hd, List.replicate_succ, List.cons_append] at h2
          injection h2 with h3 h4
          exact absurd h3 hd
      | cons a u1 =>
        rw [List.cons_append] at huv
        injection huv with h1 h2
        obtain ⟨u2, v2, h3⟩ := collapse_run_transfer (d :: t) m ⟨u1, v, h2⟩
        exact ⟨c :: u2, v2, by simp [h3]⟩

/-- Inputs whose space runs are at most `2^k` long have no two adjacent spaces
left after `k` collapse passes. -/
theorem collapseN_no_double (k : Nat) :
    ∀ l : List Char, ¬ hasRun (2^k + 1) l → ¬ hasRun 2 (collapseN k l) := by
  induction k with
  | zero =>
    intro l h
    have h2 : (2:Nat)^0 + 1 = 2 := by norm_num
    rw [h2] at h
    exact h
  | succ m ih =>
    intro l h hcon
    have h1 : ¬ hasRun (2^m + 1) (collapseOnce l) := by
      intro hr
      have h2 := collapse_run_transfer l (2^m) hr
      have h3 : 2 * 2^m + 1 = 2^(m+1) + 1 := by rw [pow_succ]; ring
      rw [h3] at h2
      exact h h2
    exact ih (collapseOnce l) h1 hcon

/-- A collapse pass is the identity on lists without two adjacent spaces. -/
theorem collapseOnce_eq_self : ∀ l : List Char, ¬ hasRun 2 l → collapseOnce l = l
  | [], _ => rfl
  | [c], _ => rfl
  | c :: d :: t, h => by
    have hcd : ¬ (c = ' ' ∧ d = ' ') := by
      rintro ⟨rfl, rfl⟩
      exact h ⟨[], t, by simp [replicate_two_space]⟩
    have ht : ¬ hasRun 2 (d :: t) := by
      rintro ⟨u, v, huv⟩
      exact h ⟨c :: u, v, by simp [huv]⟩
    simp [collapseOnce, hcd, collapseOnce_eq_self (d :: t) ht]

/-- Iterating a collapse pass on one of its fixed points does nothing. -/
theorem collapseN_eq_self (k : Nat) (l : List Char) (h : collapseOnce l = l) :
    collapseN k l = l := by
  induction k with
  | zero => rfl
  | succ m ih =>
    show collapseN m (collapseOnce l) = l
    rw [h]
    exact ih

/-- A space run in `l.dropWhile p` is a space run in `l`. -/
theorem hasRun_of_dropWhile (p : Char → Bool) (l : List Char) (m : Nat)
    (h : hasRun m (l.dropWhile p)) : hasRun m l := by
  obtain ⟨u, v, huv⟩ := h
  refine ⟨l.takeWhile p ++ u, v, ?_⟩
  conv_lhs => rw [← List.takeWhile_append_dropWhile p l]
  rw [huv, List.append_assoc]

/-- A space run in `l.reverse` is a space run in `l`. -/
theorem hasRun_of_reverse (l : List Char) (m : Nat)
    (h : hasRun m l.reverse) : hasRun m l := by
  obtain ⟨u, v, huv⟩ := h
  refine ⟨v.reverse, u.reverse, ?_⟩
  have h2 := congrArg List.reverse huv
  simpa [List.reverse_append, List.reverse_replicate, List.append_assoc] using h2

/-- The head of `l.dropWhile p` does not satisfy `p`. -/
theorem head?_dropWhile_false (p : Char → Bool) :
    ∀ (l : List Char) (c : Char), (l.dropWhile p).head? = some c → p c = false := by
  intro l
  induction l with
  | nil => intro c h; simp [List.dropWhile] at h
  | cons a t ih =>
    intro c h
    rw [List.dropWhile_cons] at h
    cases hp : p a with
    | true =>
      rw [hp] at h
      simp at h
      exact ih c h
    | false =>
      rw [hp] at h
      simp at h
      rw [← h]
      exact hp

/-- `dropWhile` is the identity when the head does not satisfy `p`. -/
theorem dropWhile_eq_self_of_head (p : Char → Bool) (l : List Char)
    (h : ∀ c, l.head? = some c → p c = false) : l.dropWhile p = l := by
  cases l with
  | nil => rfl
  | cons a t =>
    have ha := h a rfl
    rw [List.dropWhile_cons, ha]
    simp

/-- The first character surviving `stripEnds` is not a strip character. -/
theorem stripEnds_head (l : List Char) (c : Char)
    (hc : (stripEnds l).head? = some c) : isStripChar c = false := by
  unfold stripEnds at hc
  rw [List.head?_reverse] at hc
  have hwne : ((l.dropWhile isStripChar).reverse.dropWhile isStripChar) ≠ [] := by
    intro he
    rw [he] at hc
    simp at hc
  have hsplit : ((l.dropWhile isStripChar).reverse.takeWhile isStripChar) ++
      ((l.dropWhile isStripChar).reverse.dropWhile isStripChar) =
      (l.dropWhile isStripChar).reverse :=
    List.takeWhile_append_dropWhile isStripChar (l.dropWhile isStripChar).reverse
  have h2 : ((l.dropWhile isStripChar).reverse.dropWhile isStripChar).getLast? =
      ((l.dropWhile isStripChar).reverse).getLast? := by
    conv_rhs => rw [← hsplit]
    rw [List.getLast?_append_of_ne_nil _ hwne]
  rw [h2, List.getLast?_reverse] at hc
  exact head?_dropWhile_false isStripChar l c hc

/-- The last character surviving `stripEnds` is not a strip character. -/
theorem stripEnds_last (l : List Char) (c : Char)
    (hc : (stripEnds l).getLast? = some c) : isStripChar c = false := by
  unfold stripEnds at hc
  rw [List.getLast?_reverse] at hc
  exact head?_dropWhile_false isStripChar _ c hc

/-- `stripEnds` is the identity when neither end is a strip character. -/
theorem stripEnds_eq_self (l : List Char)
    (hh : ∀ c, l.head? = some c → isStripChar c = false)
    (hl : ∀ c, l.getLast? = some c → isStripChar c = false) :
    stripEnds l = l := by
  unfold stripEnds
  rw [dropWhile_eq_self_of_head isStripChar l hh]
  rw [dropWhile_eq_self_of_head isStripChar l.reverse
    (fun c hc => hl c (by rwa [List.head?_reverse] at hc))]
  exact List.reverse_reverse l

/-- Strip characters include all JS whitespace. -/
theorem isJsSpace_of_strip (c : Char) (h : isStripChar c = false) : isJsSpace c = false := by
  unfold isStripChar at h
  rcases Bool.or_eq_false_iff.mp h with ⟨h1, _⟩
  exact (Bool.or_eq_false_iff.mp h1).1

/-- `jsTrim` is the identity when neither end is a strip character. -/
theorem jsTrim_eq_self (l : List Char)
    (hh : ∀ c, l.head? = some c → isStripChar c = false)
    (hl : ∀ c, l.getLast? = some c → isStripChar c = false) :
    jsTrim l = l := by
  unfold jsTrim
  rw [dropWhile_eq_self_of_head isJsSpace l (fun c hc => isJsSpace_of_strip c (hh c hc))]
  rw [dropWhile_eq_self_of_head isJsSpace l.reverse
    (fun c hc => isJsSpace_of_strip c (hl c (by rwa [List.head?_reverse] at hc)))]
  exact List.reverse_reverse l

/-- `safeStr` fixes any list with no two adjacent spaces and no strip
character at either end. -/
theorem safeStr_eq_self (z : List Char) (hdd : ¬ hasRun 2 z)
    (hh : ∀ c, z.head? = some c → isStripChar c = false)
    (hl : ∀ c, z.getLast? = some c → isStripChar c = false) :
    safeStr z = z := by
  unfold safeStr
  rw [collapseN_eq_self 16 z (collapseOnce_eq_self z hdd)]
  rw [jsTrim_eq_self z hh hl]
  exact stripEnds_eq_self z hh hl

/-- The output of `safeStr` has no two adjacent spaces, provided the sixteen
collapse passes eliminated them. -/
theorem safeStr_no_double (l : List Char) (h : ¬ hasRun 2 (collapseN 16 l)) :
    ¬ hasRun 2 (safeStr l) := by
  intro hcon
  apply h
  unfold safeStr jsTrim stripEnds at hcon
  exact hasRun_of_dropWhile _ _ _ (hasRun_of_reverse _ _ (hasRun_of_dropWhile _ _ _
    (hasRun_of_reverse _ _ (hasRun_of_dropWhile _ _ _ (hasRun_of_reverse _ _
      (hasRun_of_dropWhile _ _ _ (hasRun_of_reverse _ _ hcon)))))))

/-- Claim C7, amended: `safeStr` is idempotent on every input that does not
contain 65537 (= 2^16 + 1) consecutive spaces; an input with a longer space
run (see `safeStr_not_idempotent`) still carries two adjacent spaces after
the sixteen collapse passes and shrinks again on a second application. -/
theorem safeStr_idem_bounded (l : JStr) (h : ¬ hasRun 65537 l) :
    safeStr (safeStr l) = safeStr l := by
  have h16 : ¬ hasRun 2 (collapseN 16 l) := by
    have h2 : (65537 : Nat) = 2^16 + 1 := by norm_num
    exact collapseN_no_double 16 l (h2 ▸ h)
  exact safeStr_eq_self (safeStr l) (safeStr_no_double l h16)
    (fun c hc => stripEnds_head (jsTrim (collapseN 16 l)) c hc)
    (fun c hc => stripEnds_last (jsTrim (collapseN 16 l)) c hc)

/-- Witness for `safeStr_idem_bounded` at a concrete short input. -/
theorem safeStr_idem_bounded_witness :
    ¬ hasRun 65537 ['a', ' ', ' ', 'b'] ∧
    safeStr (safeStr ['a', ' ', ' ', 'b']) = safeStr ['a', ' ', ' ', 'b'] ∧
    safeStr ['a', ' ', ' ', 'b'] = ['a', ' ', 'b'] := by
  have hno : ¬ hasRun 65537 ['a', ' ', ' ', 'b'] := by
    rintro ⟨u, v, huv⟩
    have hlen := congrArg List.length huv
    simp only [List.length_cons, List.length_append, List.length_replicate,
      List.length_nil] at hlen
    omega
  exact ⟨hno, safeStr_idem_bounded ['a', ' ', ' ', 'b'] hno, by decide⟩

/-- Claim C9: the prompt-expansion handler never surfaces a failure.  An
absent or empty prompt gets 200 with an empty prompt; with a prompt present,
the status is always 200; a pipeline failure yields the original prompt
unchanged; a pipeline success yields the sanitized expanded prompt. -/
theorem expand_never_fails (p : JStr) (hp : p ≠ []) (pick : Fin 2)
    (pipe : JStr → PipeResult) :
    expandHandler none pick pipe = { status := 200, prompt := [] } ∧
    expandHandler (some []) pick pipe = { status := 200, prompt := [] } ∧
    (expandHandler (some p) pick pipe).status = 200 ∧
    (pipe (expandInput p pick) = PipeResult.err →
      (expandHandler (some p) pick pipe).prompt = p) ∧
    (∀ t, pipe (expandInput p pick) = PipeResult.ok t →
      (expandHandler (some p) pick pipe).prompt =
        safeStr (removePattern t dangerousPatterns)) := by
  refine ⟨rfl, by simp [expandHandler], ?_, ?_, ?_⟩
  · cases hres : pipe (expandInput p pick) <;> simp [expandHandler, hp, hres]
  · intro herr; simp [expandHandler, hp, herr]
  · intro t hok; simp [expandHandler, hp, hok]

/-- Witness for `expand_never_fails`: prompt "x" with a failing pipeline. -/
theorem expand_never_fails_witness :
    (['x'] : JStr) ≠ [] ∧
    (expandHandler (some ['x']) 0 (fun _ => PipeResult.err)).status = 200 ∧
    (expandHandler (some ['x']) 0 (fun _ => PipeResult.err)).prompt = ['x'] := by
  have h := expand_never_fails ['x'] (by decide) 0 (fun _ => PipeResult.err)
  exact ⟨by decide, h.2.2.1, h.2.2.2.1 rfl⟩

/-- The progress-wait loop of set-model polls at most `n` times in `n`
remaining attempts. -/
theorem smLoop_poll_le : ∀ (n : Nat) (states : Nat → ProgressState),
    (smLoop states n).count SMEvent.poll ≤ n := by
  intro n
  induction n with
  | zero => intro states; simp [smLoop]
  | succ m ih =>
    intro states
    by_cases h : progressIdle (states 0)
    · simp [smLoop, h]
    · have := ih (fun i => states (i+1))
      simp [smLoop, h, List.count_cons]
      omega

/-- If the first idle poll is the k-th one (k < n attempts remaining), the
loop polls k+1 times with a 2000-unit delay after each of the k non-idle
polls, then stops. -/
theorem smLoop_found : ∀ (k n : Nat) (states : Nat → ProgressState),
    k < n → progressIdle (states k) = true →
    (∀ j, j < k → progressIdle (states j) = false) →
    smLoop states n =
      (List.replicate k [SMEvent.poll, SMEvent.wait 2000]).flatten ++ [SMEvent.poll] := by
  intro k
  induction k with
  | zero =>
    intro n states hn hidle _
    match n, hn with
    | m+1, _ => simp [smLoop, hidle]
  | succ k ih =>
    intro n states hn hidle habs
    match n, hn with
    | m+1, hm =>
      have h0 : progressIdle (states 0) = false := habs 0 (Nat.succ_pos k)
      have hrec := ih m (fun i => states (i+1)) (Nat.lt_of_succ_lt_succ hm) hidle
        (fun j hj => habs (j+1) (Nat.succ_lt_succ hj))
      simp [smLoop, h0, hrec, List.replicate_succ]

/-- If no poll among the first `n` is idle, the loop runs all `n` attempts,
each poll followed by the 2000-unit delay. -/
theorem smLoop_never_idle : ∀ (n : Nat) (states : Nat → ProgressState),
    (∀ j, j < n → progressIdle (states j) = false) →
    smLoop states n = (List.replicate n [SMEvent.poll, SMEvent.wait 2000]).flatten := by
  intro n
  induction n with
  | zero => intro states _; simp [smLoop]
  | succ m ih =>
    intro states habs
    have h0 := habs 0 (Nat.succ_pos m)
    have hrec := ih (fun i => states (i+1)) (fun j hj => habs (j+1) (Nat.succ_lt_succ hj))
    simp [smLoop, h0, hrec, List.replicate_succ]

/-- Claim C10: after a successful model-switch POST, the handler responds 200,
polls the progress endpoint at most 10 times, stops early at the first idle
poll (progress == 0.0 and job_count === 0) with a 2000-unit delay after each
non-idle poll, and still responds 200 when all 10 polls are non-idle. -/
theorem set_model_wait_bounded (states : Nat → ProgressState) :
    (setModelHandler true states).status = 200 ∧
    ((setModelHandler true states).events.count SMEvent.poll) ≤ 10 ∧
    (∀ k, k < 10 → progressIdle (states k) = true →
      (∀ j, j < k → progressIdle (states j) = false) →
      (setModelHandler true states).events =
        (List.replicate k [SMEvent.poll, SMEvent.wait 2000]).flatten ++ [SMEvent.poll]) ∧
    ((∀ j, j < 10 → progressIdle (states j) = false) →
      (setModelHandler true states).events =
        (List.replicate 10 [SMEvent.poll, SMEvent.wait 2000]).flatten) := by
  refine ⟨rfl, ?_, ?_, ?_⟩
  · simpa [setModelHandler] using smLoop_poll_le 10 states
  · intro k hk hidle habs
    simpa [setModelHandler] using smLoop_found k 10 states hk hidle habs
  · intro habs
    simpa [setModelHandler] using smLoop_never_idle 10 states habs

/-- Witness for `set_model_wait_bounded`: an immediately idle backend gives a
single poll and a 200 response. -/
theorem set_model_wait_bounded_witness :
    (setModelHandler true idleStates).status = 200 ∧
    (setModelHandler true idleStates).events = [SMEvent.poll] := by
  have h := set_model_wait_bounded idleStates
  refine ⟨h.1, ?_⟩
  have h2 := h.2.2.1 0 (by omega) (by decide) (fun j hj => absurd hj (Nat.not_lt_zero j))
  simpa using h2

/-- Claim C3, counterexample: the number of backend-calling handlers that
forward the backend's raw error text to the caller is not one (it is four). -/
theorem error_text_forwarding_not_unique :
    ¬ ((backendHandlers.countP (fun h => (h.2 "err").body == some "err")) = 1) := by
  decide

/-- Claim C3, amended: on a non-2xx backend response with error body `t`,
exactly four call sites — the OpenAI caption-image, transcribe-audio,
generate-voice and generate-image handlers — forward the raw error text to
the caller (with a fixed 500 status, not the backend's status); every other
backend-calling handler responds 500 with no payload. -/
theorem error_text_forwarding_amended (t : String) :
    ((backendHandlers.filter (fun h => ((h.2 t).body).isSome)).map Prod.fst) =
      ["/api/openai/caption-image", "/api/openai/transcribe-audio",
       "/api/openai/generate-voice", "/api/openai/generate-image"] ∧
    captionImageOnError t = { status := 500, body := some t } ∧
    transcribeAudioOnError t = { status := 500, body := some t } ∧
    generateVoiceOnError t = { status := 500, body := some t } ∧
    generateImageOnError t = { status := 500, body := some t } ∧
    (∀ h, h ∈ backendHandlers →
      h.2 t = { status := 500, body := some t } ∨ h.2 t = { status := 500, body := none }) := by
  refine ⟨?_, rfl, rfl, rfl, rfl, ?_⟩
  · simp [backendHandlers, sdPingOnError, sdUpscalersOnError, sdSamplersOnError,
      sdModelsOnError, sdGetModelOnError, sdSetModelOnError, sdGenerateOnError,
      sdNextUpscalersOnError, comfyPingOnError, comfySamplersOnError, comfyModelsOnError,
      comfySchedulersOnError, comfyVaesOnError, comfyGenerateOnError,
      captionImageOnError, transcribeAudioOnError, generateVoiceOnError,
      generateImageOnError]
  · intro h hm
    simp only [backendHandlers, List.mem_cons, List.not_mem_nil, or_false] at hm
    rcases hm with rfl | rfl | rfl | rfl | rfl | rfl | rfl | rfl | rfl | rfl | rfl | rfl |
      rfl | rfl | rfl | rfl | rfl | rfl <;>
      first
        | exact Or.inl rfl
        | exact Or.inr rfl

/-- If the job id first appears in the k-th snapshot (all earlier lookups
empty), then with more than k polls of fuel the loop stops at the k+1-st poll,
having waited 100 units after each of the k unsuccessful polls. -/
theorem pollLoop_found : ∀ (k : Nat) (id : String) (histories : Nat → History)
    (item : HistoryItem),
    (∀ j, j < k → (histories j).lookup id = none) →
    (histories k).lookup id = some item →
    ∀ fuel, k < fuel →
      pollLoop id histories fuel =
        some ((List.replicate k [CAction.getHistory, CAction.wait 100]).flatten ++
          [CAction.getHistory], item) := by
  intro k
  induction k with
  | zero =>
    intro id histories item _ hfound fuel hfuel
    match fuel, hfuel with
    | f+1, _ => simp [pollLoop, hfound]
  | succ k ih =>
    intro id histories item habsent hfound fuel hfuel
    match fuel, hfuel with
    | f+1, hf =>
      have h0 : (histories 0).lookup id = none := habsent 0 (Nat.succ_pos k)
      have hrec := ih id (fun i => histories (i+1)) item
        (fun j hj => habsent (j+1) (Nat.succ_lt_succ hj)) hfound f (Nat.lt_of_succ_lt_succ hf)
      simp [pollLoop, h0, hrec, List.replicate_succ]

/-- If the loop returns within some fuel, the id occurs in some snapshot. -/
theorem pollLoop_some_exists : ∀ (fuel : Nat) (id : String) (histories : Nat → History),
    (pollLoop id histories fuel).isSome →
    ∃ k, ((histories k).lookup id).isSome := by
  intro fuel
  induction fuel with
  | zero => intro id histories h; simp [pollLoop] at h
  | succ f ih =>
    intro id histories h
    cases hl : (histories 0).lookup id with
    | some item => exact ⟨0, by simp [hl]⟩
    | none =>
      cases hr : pollLoop id (fun i => histories (i+1)) f with
      | none => simp [pollLoop, hl, hr] at h
      | some val =>
        obtain ⟨k, hk⟩ := ih id (fun i => histories (i+1)) (by simp [hr])
        exact ⟨k+1, hk⟩

/-- Claim C5: the polling loop has no iteration bound or timeout.  It
terminates (returns within some fuel) exactly when some history snapshot
contains the submitted job id as a key; when the id first appears at
snapshot k, the loop makes k+1 history GETs with a 100-unit wait after each
of the k polls in which the id was absent; and if the id never appears the
loop runs forever (no fuel suffices). -/
theorem comfy_poll_unbounded (id : String) (histories : Nat → History) :
    ((∃ fuel, (pollLoop id histories fuel).isSome) ↔
      (∃ k, ((histories k).lookup id).isSome)) ∧
    (∀ k item, (∀ j, j < k → (histories j).lookup id = none) →
      (histories k).lookup id = some item → ∀ fuel, k < fuel →
      pollLoop id histories fuel =
        some ((List.replicate k [CAction.getHistory, CAction.wait 100]).flatten ++
          [CAction.getHistory], item)) ∧
    ((∀ k, (histories k).lookup id = none) →
      ∀ fuel, pollLoop id histories fuel = none) := by
  refine ⟨⟨?_, ?_⟩, ?_, ?_⟩
  · rintro ⟨fuel, h⟩
    exact pollLoop_some_exists fuel id histories h
  · intro hex
    have hk0 : ((histories (Nat.find hex)).lookup id).isSome := Nat.find_spec hex
    obtain ⟨item, hitem⟩ := Option.isSome_iff_exists.mp hk0
    have habs : ∀ j, j < Nat.find hex → (histories j).lookup id = none := fun j hj =>
      Option.not_isSome_iff_eq_none.mp (Nat.find_min hex hj)
    refine ⟨Nat.find hex + 1, ?_⟩
    rw [pollLoop_found (Nat.find hex) id histories item habs hitem
      (Nat.find hex + 1) (Nat.lt_succ_self _)]
    rfl
  · exact fun k item h1 h2 fuel hf => pollLoop_found k id histories item h1 h2 fuel hf
  · intro hnone fuel
    cases hres : pollLoop id histories fuel with
    | none => rfl
    | some val =>
      obtain ⟨k, hk⟩ := pollLoop_some_exists fuel id histories (by simp [hres])
      simp [hnone k] at hk

/-- Witness for `comfy_poll_unbounded`: a backend whose second snapshot
carries the job gives exactly two history GETs separated by one 100-unit
wait. -/
theorem comfy_poll_unbounded_witness :
    pollLoop "job1" histOnce 2 =
      some ([CAction.getHistory, CAction.wait 100, CAction.getHistory], itemX) := by
  have h := (comfy_poll_unbounded "job1" histOnce).2.1 1 itemX
    (by intro j hj; interval_cases j; rfl) (by decide) 2 (by omega)
  simpa using h

/-- Witness for `error_text_forwarding_amended` at a concrete error text. -/
theorem error_text_forwarding_amended_witness :
    ((backendHandlers.filter (fun h => ((h.2 "boom").body).isSome)).map Prod.fst) =
      ["/api/openai/caption-image", "/api/openai/transcribe-audio",
       "/api/openai/generate-voice", "/api/openai/generate-image"] ∧
    captionImageOnError "boom" = { status := 500, body := some "boom" } ∧
    sdGenerateOnError "boom" = { status := 500, body := none } := by
  have h := error_text_forwarding_amended "boom"
  exact ⟨h.1, h.2.1, rfl⟩

end STSpec
